import Mathlib

/-!
Shallow embedding of `review.py`, an AI code-review orchestration script.

External effects (subprocess invocation, HTTP requests, filesystem access,
environment variables and the generative-model API) are modelled by an
explicit `Env` record of pure functions: each field gives, for every possible
input, the outcome the external world would produce (success value or the
message of the exception the corresponding Python library call would raise).
The script's functions are then translated statement by statement into pure
Lean functions over `Env`, and the observable actions that the claims talk
about (strings printed, whether the model was invoked) are returned as data.
-/

/-! ### Python string primitives

The script manipulates strings with `str.strip`, `str.split(',')`,
`str.lower`, `str.endswith`, `str.join` and the `in` substring test. These
are embedded as structurally recursive functions on `List Char` so that every
definition evaluates inside the kernel. -/

/-- The ASCII whitespace characters `str.strip()` removes. -/
def isPyWhitespace (c : Char) : Bool :=
  c = ' ' || c = '\t' || c = '\n' || c = '\r' || c = '\x0b' || c = '\x0c'

/-- Python's `s.strip()`. -/
def pyStrip (s : String) : String :=
  ⟨((s.data.dropWhile isPyWhitespace).reverse.dropWhile isPyWhitespace).reverse⟩

/-- Python's `s.split(sep)` for a one-character separator, on char lists. -/
def splitOnChar (sep : Char) : List Char → List (List Char)
  | [] => [[]]
  | c :: rest =>
    let r := splitOnChar sep rest
    if c = sep then [] :: r
    else
      match r with
      | [] => [[c]]
      | h :: t => (c :: h) :: t

/-- Python's `s.split(',')`. -/
def pySplitComma (s : String) : List String :=
  (splitOnChar ',' s.data).map (fun l => ⟨l⟩)

/-- Python's `s.lower()` (ASCII case folding, as the URLs here use). -/
def pyLower (s : String) : String :=
  ⟨s.data.map Char.toLower⟩

/-- Python's `s.endswith(suffix)`. -/
def pyEndsWith (s sfx : String) : Bool :=
  sfx.data.isSuffixOf s.data

/-- Python's `sep.join(parts)`. -/
def pyJoin (sep : String) : List String → String
  | [] => ""
  | [x] => x
  | x :: xs => x ++ sep ++ pyJoin sep xs

/-- Occurrence of `pat` as a contiguous run inside `s` (Python's `in` on
strings, at the character-list level). -/
def listContainsSub (pat : List Char) : List Char → Bool
  | [] => pat.isEmpty
  | c :: rest => pat.isPrefixOf (c :: rest) || listContainsSub pat rest

/-- Python's `pat in s` substring test. -/
def strContains (pat s : String) : Bool :=
  listContainsSub pat.data s.data

/-- Outcome of `requests.get(url)` after `raise_for_status()`: the declared
Content-Type header, the result of attempting PDF text extraction on the body
(`fitz` may raise, hence `Except`), and the text the HTML-cleaning pipeline
(BeautifulSoup strip + line normalisation) produces from the body. -/
structure HttpResponse where
  contentType : String
  pdfText : Except String String
  htmlText : String

/-- The external world as seen by one run of the script. -/
structure Env where
  /-- `subprocess.check_output(["gh", "pr", "diff", pr_number], ...)`:
  `.ok` is the captured stdout, `.error` the stderr of a non-zero exit
  (the `e.stderr` of the raised `CalledProcessError`). -/
  ghDiff : String → Except String String
  /-- `requests.get(url, ...)` followed by `raise_for_status()`: `.error` is
  the message of the raised exception. -/
  http : String → Except String HttpResponse
  /-- `os.path.isdir` -/
  isDir : String → Bool
  /-- `os.path.isfile` -/
  isFile : String → Bool
  /-- The file paths `os.path.join(root, name)` produced by the
  `os.walk(path)` loop, in traversal order. -/
  walk : String → List String
  /-- `open(file_path).read()`: `.error` is the raised exception's message. -/
  readFile : String → Except String String
  /-- `os.getenv("GEMINI_API_KEY")` -/
  apiKey : Option String
  /-- `genai.GenerativeModel(model).generate_content(prompt).text`, taking the
  model name and the prompt: `.error` is the raised exception's message. -/
  generate : String → String → Except String String

/-! ## get_pr_diff -/

/-- `get_pr_diff(pr_number)`: fetch the PR diff, strip it, and pair it with a
list of error strings. -/
def get_pr_diff (env : Env) (pr_number : String) : String × List String :=
  match env.ghDiff pr_number with
  | .ok out =>
    let diff := pyStrip out
    let errors := if diff = "" then ["Could not retrieve PR diff or diff is empty."] else []
    (diff, errors)
  | .error stderr =>
    ("", ["Failed to fetch PR diff for PR #" ++ pr_number ++ ": " ++ stderr])

/-! ## get_document_content -/

/-- The delimited block wrapped around one fetched document or file. -/
def contentBlock (tag content : String) : String :=
  "--- Start of content from " ++ tag ++ " ---\n" ++ content ++ "\n--- End of content from " ++ tag ++ " ---\n\n"

/-- Body of the per-URL loop of `get_document_content`: the text appended to
`all_docs_content` and the entries appended to `errors` for one URL. -/
def processUrl (env : Env) (url : String) : String × List String :=
  match env.http url with
  | .error e => ("", ["Error processing document '" ++ url ++ "': " ++ e])
  | .ok resp =>
    if strContains "application/pdf" resp.contentType || pyEndsWith (pyLower url) ".pdf" then
      match resp.pdfText with
      | .ok content => (contentBlock url content, [])
      | .error e => ("", ["Error processing document '" ++ url ++ "': " ++ e])
    else
      (contentBlock url resp.htmlText, [])

/-- One iteration of the per-URL loop: skip empty URLs, otherwise append the
URL's content and errors to the accumulators. -/
def docStep (env : Env) (acc : String × List String) (url : String) : String × List String :=
  if url = "" then acc
  else
    let r := processUrl env url
    (acc.1 ++ r.1, acc.2 ++ r.2)

/-- `get_document_content(urls_str)`. -/
def get_document_content (env : Env) (urls_str : String) : String × List String :=
  if urls_str = "" then
    ("No external references were provided.", [])
  else
    let urls := (pySplitComma urls_str).map pyStrip
    urls.foldl (docStep env) ("", [])

/-! ## get_repo_files_content -/

/-- `[path.strip() for path in paths_str.split(',')]`. -/
def parsePaths (s : String) : List String :=
  (pySplitComma s).map pyStrip

/-- The path-expansion loop: directories are walked recursively, plain files
are appended, anything else records a "not found" error. -/
def expandPaths (env : Env) (paths : List String) : List String × List String :=
  paths.foldl
    (fun acc path =>
      if path = "" then acc
      else if env.isDir path then (acc.1 ++ env.walk path, acc.2)
      else if env.isFile path then (acc.1 ++ [path], acc.2)
      else (acc.1, acc.2 ++ ["Could not find file or directory: " ++ path]))
    ([], [])

/-- `sorted(list(set(expanded_files)))`: the distinct expanded paths in
ascending lexicographic order. -/
def uniqueFiles (env : Env) (paths_str : String) : List String :=
  (((expandPaths env (parsePaths paths_str)).1).dedup).insertionSort (· ≤ ·)

/-- One iteration of the file-reading loop: append the file's delimited block
on success, an error entry on failure. -/
def repoReadStep (env : Env) (acc : String × List String) (file_path : String) :
    String × List String :=
  match env.readFile file_path with
  | .ok content => (acc.1 ++ contentBlock file_path content, acc.2)
  | .error e => (acc.1, acc.2 ++ ["Error reading file " ++ file_path ++ ": " ++ e])

/-- `get_repo_files_content(paths_str)`. -/
def get_repo_files_content (env : Env) (paths_str : String) : String × List String :=
  if paths_str = "" then
    ("No ArkLib references were provided.", [])
  else
    let errors := (expandPaths env (parsePaths paths_str)).2
    (uniqueFiles env paths_str).foldl (repoReadStep env) ("", errors)

/-! ## analyze_code_with_context -/

/-- The review-context dictionary: `.get(key, default)` is modelled by
`Option.getD`, so a key can be absent. -/
structure ReviewContext where
  diff : Option String := none
  external_context : Option String := none
  repo_context : Option String := none
  additional_comments : Option String := none
  gemini_model : Option String := none

/-- Network-touching steps of the Gemini client, recorded as a trace. -/
inductive NetEvent where
  | configure
  | generateCall
  deriving DecidableEq, Repr

/-- Literal text of the prompt template before the conditional comments
section (f-string lines up to the interpolation of
`additional_comments_section`). -/
def promptIntro : String :=
  "\n    You are a meticulous senior engineer specializing in formal verification. Your task is to rigorously review a pull request for misformalization issues. You have been given the following information:\n    1.  The content of external reference documents, which contains the formal specification.\n    2.  The full content of other relevant files from the repository.\n    3.  The code changes (\"diff\") from the pull request that intends to implement the specification.\n    "

/-- Literal prompt text between the comments section and `external_context`. -/
def promptSpecHeader : String :=
  "\n    **1. External Reference Documents (Specification):**\n    ---\n    "

/-- Literal prompt text between `external_context` and `repo_context`. -/
def promptRepoHeader : String :=
  "\n    ---\n\n    **2. Additional Repository Context Files:**\n    ---\n    "

/-- Literal prompt text between `repo_context` and `diff`. -/
def promptDiffHeader : String :=
  "\n    ---\n\n    **3. Pull Request Diff:**\n    ---\n    "

/-- Literal prompt text after `diff`: the numbered instruction list. -/
def promptInstructions : String :=
  "\n    ---\n\n    **Your Instructions:**\n    Follow these steps precisely to conduct your review:\n    1.  **Summarize Goal:** In a single sentence, state the primary goal of this pull request based on the provided context.\n    2.  **Identify Specification:** Quote the specific section(s) from the \"External Reference Documents\" that the PR is attempting to formalize.\n    3.  **Analyze Implementation:** Go through the \"Pull Request Diff\" hunk by hunk. For each change, analyze its logic and correctness. Explicitly map the code changes back to the specification you identified.\n    4.  **Check for Misformalization:** Critically assess whether the code is a correct and complete formalization of the specification. Pay close attention to edge cases, logical inconsistencies, incorrect assumptions, or deviations from the formal model.\n    5.  **Provide Verdict:** State clearly whether the formalization is correct or incorrect.\n    6.  **Actionable Feedback:** If the formalization is incorrect, provide a detailed explanation of the misformalization. Explain *why* it is wrong and illustrate your point with corrected code snippets. If the formalization is correct, state that and suggest any minor improvements if applicable.\n\n    Structure your review clearly using markdown for formatting.\n    "

/-- Opening literal of the conditional comments section (up to the
interpolation of `additional_comments`). -/
def acSectionStart : String :=
  "\n    **4. Additional Reviewer Comments:**\n    ---\n    "

/-- Closing literal of the conditional comments section. -/
def acSectionEnd : String := "\n    ---\n    "

/-- `additional_comments_section`: rendered only when `additional_comments`
is truthy and strips to something non-empty. -/
def additionalCommentsSection (additional_comments : String) : String :=
  if additional_comments ≠ "" ∧ pyStrip additional_comments ≠ "" then
    acSectionStart ++ additional_comments ++ acSectionEnd
  else ""

/-- The full prompt f-string assembled by `analyze_code_with_context`. -/
def assembledPrompt (ctx : ReviewContext) : String :=
  promptIntro
    ++ additionalCommentsSection (ctx.additional_comments.getD "")
    ++ promptSpecHeader ++ ctx.external_context.getD ""
    ++ promptRepoHeader ++ ctx.repo_context.getD ""
    ++ promptDiffHeader ++ ctx.diff.getD ""
    ++ promptInstructions

/-- `analyze_code_with_context(review_context)`: returns the review text (or
an error string) together with the trace of network-touching steps. -/
def analyze_code_with_context (env : Env) (ctx : ReviewContext) : String × List NetEvent :=
  match env.apiKey with
  | none => ("Error: GEMINI_API_KEY environment variable not set.", [])
  | some _ =>
    let gemini_model := ctx.gemini_model.getD "gemini-3-pro-preview"
    match env.generate gemini_model (assembledPrompt ctx) with
    | .ok text => (text, [.configure, .generateCall])
    | .error e =>
      ("An error occurred while calling the Gemini API: " ++ e, [.configure, .generateCall])

/-! ## main -/

/-- The parsed command-line arguments, with argparse defaults. -/
structure Args where
  prNumber : String
  externalRefs : String := ""
  arklibRefs : String := ""
  additionalComments : String := ""
  geminiModel : String := "gemini-3-pro-preview"

/-- Observable outcome of one run of `main`: the strings printed to stdout in
order, and whether `analyze_code_with_context` was invoked. -/
structure MainOut where
  printed : List String
  analyzeCalled : Bool
  deriving Repr

/-- `main()`. -/
def mainRun (env : Env) (args : Args) : MainOut :=
  let d := get_pr_diff env args.prNumber
  let diff := d.1
  let diff_errors := d.2
  let ext := get_document_content env args.externalRefs
  let repo := get_repo_files_content env args.arklibRefs
  if diff_errors ≠ [] ∧ diff = "" then
    { printed := ["Aborting review: Could not fetch PR diff. Errors:\n"
        ++ pyJoin "\n" diff_errors]
      analyzeCalled := false }
  else
    let all_errors := diff_errors ++ ext.2 ++ repo.2
    let repo_context :=
      if all_errors ≠ [] then
        repo.1 ++ ("\n--- Errors Encountered During Context Fetching ---\n"
          ++ pyJoin "\n" all_errors)
      else repo.1
    let ctx : ReviewContext :=
      { diff := some diff
        external_context := some ext.1
        repo_context := some repo_context
        additional_comments := some args.additionalComments
        gemini_model := some args.geminiModel }
    let review := analyze_code_with_context env ctx
    { printed := [review.1], analyzeCalled := true }

/-! ## Concrete environments used to witness the theorems below -/

/-- A world where the diff fetch succeeds and everything else is inert. -/
def envOkDiff : Env where
  ghDiff := fun _ => .ok "diff content"
  http := fun _ => .error "offline"
  isDir := fun _ => false
  isFile := fun _ => false
  walk := fun _ => []
  readFile := fun _ => .error "missing"
  apiKey := none
  generate := fun _ _ => .error "offline"

/-- A world where the `gh pr diff` subprocess exits non-zero. -/
def envBadDiff : Env := { envOkDiff with ghDiff := fun _ => .error "gh: not found" }

/-- A world where the diff subprocess succeeds with whitespace-only output. -/
def envBlankDiff : Env := { envOkDiff with ghDiff := fun _ => .ok "  \n " }

/-! ## Theorems -/

/-- C8: with the empty string as input, `get_document_content` returns the
sentinel "No external references were provided." with no errors, and
`get_repo_files_content` returns "No ArkLib references were provided." with
no errors. -/
theorem empty_inputs_yield_sentinels (env : Env) :
    get_document_content env "" = ("No external references were provided.", []) ∧
    get_repo_files_content env "" = ("No ArkLib references were provided.", []) :=
  ⟨rfl, rfl⟩

/-- C9: `get_pr_diff` returns at most one error, and whenever the returned
diff text is non-empty the error list is empty. -/
theorem get_pr_diff_error_invariant (env : Env) (pr : String) :
    (get_pr_diff env pr).2.length ≤ 1 ∧
    ((get_pr_diff env pr).1 ≠ "" → (get_pr_diff env pr).2 = []) := by
  unfold get_pr_diff
  cases henv : env.ghDiff pr with
  | ok out =>
    by_cases hd : pyStrip out = "" <;> simp [hd]
  | error e => simp

/-- C9 witness: in a world whose diff subprocess outputs "diff content", the
invariant's consequent applies: the diff is non-empty, so no errors. -/
theorem get_pr_diff_error_invariant_witness :
    (get_pr_diff envOkDiff "42").2 = [] :=
  (get_pr_diff_error_invariant envOkDiff "42").2 (by decide)

/-- C4: when `GEMINI_API_KEY` is unset, `analyze_code_with_context` returns a
string beginning with "Error:" and its network trace is empty (no API
configuration, no model invocation). -/
theorem analyze_no_key_no_network (env : Env) (ctx : ReviewContext)
    (h : env.apiKey = none) :
    (∃ rest, (analyze_code_with_context env ctx).1 = "Error:" ++ rest) ∧
    (analyze_code_with_context env ctx).2 = [] := by
  unfold analyze_code_with_context
  rw [h]
  refine ⟨⟨" GEMINI_API_KEY environment variable not set.", ?_⟩, rfl⟩
  rfl

/-- C4 witness: concrete run with the key unset. -/
theorem analyze_no_key_no_network_witness :
    (∃ rest, (analyze_code_with_context envOkDiff {}).1 = "Error:" ++ rest) ∧
    (analyze_code_with_context envOkDiff {}).2 = [] :=
  analyze_no_key_no_network envOkDiff {} rfl

/-- C3: `analyze_code_with_context` always returns a string; an exception
from the model call is caught and becomes a formatted error string, so one of
three outcomes occurs: the missing-key error string, the formatted
API-exception string, or the model's own response text. -/
theorem analyze_always_returns_string (env : Env) (ctx : ReviewContext) :
    (analyze_code_with_context env ctx).1 = "Error: GEMINI_API_KEY environment variable not set." ∨
    (∃ e, env.generate (ctx.gemini_model.getD "gemini-3-pro-preview") (assembledPrompt ctx)
        = .error e ∧
      (analyze_code_with_context env ctx).1
        = "An error occurred while calling the Gemini API: " ++ e) ∨
    (∃ t, env.generate (ctx.gemini_model.getD "gemini-3-pro-preview") (assembledPrompt ctx)
        = .ok t ∧
      (analyze_code_with_context env ctx).1 = t) := by
  cases h1 : env.apiKey with
  | none => exact .inl (by simp [analyze_code_with_context, h1])
  | some k =>
    cases hg : env.generate (ctx.gemini_model.getD "gemini-3-pro-preview") (assembledPrompt ctx) with
    | ok t => exact .inr (.inr ⟨t, rfl, by simp [analyze_code_with_context, h1, hg]⟩)
    | error e => exact .inr (.inl ⟨e, rfl, by simp [analyze_code_with_context, h1, hg]⟩)

/-- C1: if the diff subprocess exits non-zero, `main` prints an abort message
containing the captured stderr-derived error text and returns without calling
`analyze_code_with_context`. -/
theorem main_aborts_on_diff_fetch_failure (env : Env) (args : Args) (stderr : String)
    (h : env.ghDiff args.prNumber = .error stderr) :
    (mainRun env args).analyzeCalled = false ∧
    ∃ msg pre post, (mainRun env args).printed = [msg] ∧
      msg.data =
        pre ++ ("Failed to fetch PR diff for PR #" ++ args.prNumber ++ ": " ++ stderr).data
          ++ post := by
  have hd : get_pr_diff env args.prNumber =
      ("", ["Failed to fetch PR diff for PR #" ++ args.prNumber ++ ": " ++ stderr]) := by
    unfold get_pr_diff; rw [h]
  constructor
  · simp [mainRun, hd]
  · refine ⟨"Aborting review: Could not fetch PR diff. Errors:\n"
        ++ ("Failed to fetch PR diff for PR #" ++ args.prNumber ++ ": " ++ stderr),
      "Aborting review: Could not fetch PR diff. Errors:\n".data, [], ?_, ?_⟩
    · simp [mainRun, hd, pyJoin]
    · simp [String.data_append]

/-- C1 witness: a concrete world whose `gh pr diff` call fails. -/
theorem main_aborts_on_diff_fetch_failure_witness :
    (mainRun envBadDiff { prNumber := "42" }).analyzeCalled = false :=
  (main_aborts_on_diff_fetch_failure envBadDiff { prNumber := "42" } "gh: not found" rfl).1

/-- C5: if the diff subprocess succeeds but its output strips to the empty
string, `main` aborts with the empty-diff error and never calls
`analyze_code_with_context`: the two-part gate fires because `get_pr_diff`
recorded an error entry for the empty output. -/
theorem main_aborts_on_empty_diff (env : Env) (args : Args) (out : String)
    (h1 : env.ghDiff args.prNumber = .ok out) (h2 : pyStrip out = "") :
    (mainRun env args).analyzeCalled = false ∧
    (mainRun env args).printed =
      ["Aborting review: Could not fetch PR diff. Errors:\nCould not retrieve PR diff or diff is empty."] := by
  have hd : get_pr_diff env args.prNumber =
      ("", ["Could not retrieve PR diff or diff is empty."]) := by
    unfold get_pr_diff; rw [h1]; simp [h2]
  constructor
  · simp [mainRun, hd]
  · simp [mainRun, hd, pyJoin]

/-- C5 witness: a concrete world whose diff subprocess outputs only
whitespace. -/
theorem main_aborts_on_empty_diff_witness :
    (mainRun envBlankDiff { prNumber := "42" }).analyzeCalled = false :=
  (main_aborts_on_empty_diff envBlankDiff { prNumber := "42" } "  \n " rfl (by decide)).1

/-- C10: when `additional_comments` is non-empty after stripping, the
"**4. Additional Reviewer Comments:**" header appears in the assembled prompt
before the "**1. External Reference Documents (Specification):**" header. -/
theorem prompt_comments_section_precedes_spec_section (ctx : ReviewContext)
    (h : pyStrip (ctx.additional_comments.getD "") ≠ "") :
    ∃ a b c : List Char,
      (assembledPrompt ctx).data =
        a ++ "**4. Additional Reviewer Comments:**".data ++ b
          ++ "**1. External Reference Documents (Specification):**".data ++ c := by
  have hne : ctx.additional_comments.getD "" ≠ "" := by
    intro he; rw [he] at h; exact h rfl
  refine ⟨promptIntro.data ++ "\n    ".data,
    "\n    ---\n    ".data ++ (ctx.additional_comments.getD "").data
      ++ acSectionEnd.data ++ "\n    ".data,
    "\n    ---\n    ".data ++ (ctx.external_context.getD "").data
      ++ promptRepoHeader.data ++ (ctx.repo_context.getD "").data
      ++ promptDiffHeader.data ++ (ctx.diff.getD "").data ++ promptInstructions.data, ?_⟩
  have h4 : acSectionStart.data =
      "\n    ".data ++ "**4. Additional Reviewer Comments:**".data ++ "\n    ---\n    ".data := by
    decide
  have h1 : promptSpecHeader.data =
      "\n    ".data ++ "**1. External Reference Documents (Specification):**".data
        ++ "\n    ---\n    ".data := by
    decide
  simp only [assembledPrompt, additionalCommentsSection, if_pos (And.intro hne h),
    String.data_append, h4, h1, List.append_assoc]

/-- C10 witness: a concrete context with a non-blank comment. -/
theorem prompt_comments_section_precedes_spec_section_witness :
    ∃ a b c : List Char,
      (assembledPrompt { additional_comments := some "note" }).data =
        a ++ "**4. Additional Reviewer Comments:**".data ++ b
          ++ "**1. External Reference Documents (Specification):**".data ++ c :=
  prompt_comments_section_precedes_spec_section { additional_comments := some "note" }
    (by decide)

/-- A review context whose comments are whitespace-only. -/
def ctxBlankComments : ReviewContext := { additional_comments := some "  " }

set_option maxRecDepth 10000 in
/-- C6: when `additional_comments` is empty or whitespace-only, no
"Additional Reviewer Comments" section is rendered: the conditional section
is the empty string, the prompt is exactly the fixed template around the
three context fields with nothing in the section's place, and the section
header occurs nowhere in the fixed template text. -/
theorem prompt_omits_comments_section (ctx : ReviewContext)
    (h : pyStrip (ctx.additional_comments.getD "") = "") :
    additionalCommentsSection (ctx.additional_comments.getD "") = "" ∧
    assembledPrompt ctx =
      promptIntro ++ promptSpecHeader ++ ctx.external_context.getD ""
        ++ promptRepoHeader ++ ctx.repo_context.getD ""
        ++ promptDiffHeader ++ ctx.diff.getD "" ++ promptInstructions ∧
    listContainsSub "**4. Additional Reviewer Comments:**".data
      (promptIntro ++ promptSpecHeader ++ promptRepoHeader ++ promptDiffHeader
        ++ promptInstructions).data = false := by
  have hsec : additionalCommentsSection (ctx.additional_comments.getD "") = "" := by
    unfold additionalCommentsSection
    exact if_neg (fun hc => hc.2 h)
  refine ⟨hsec, ?_, by decide⟩
  simp only [assembledPrompt, hsec, String.append_empty, String.append_assoc]

/-- C6 witness: a concrete context with whitespace-only comments renders no
comments section. -/
theorem prompt_omits_comments_section_witness :
    assembledPrompt ctxBlankComments =
      promptIntro ++ promptSpecHeader ++ ctxBlankComments.external_context.getD ""
        ++ promptRepoHeader ++ ctxBlankComments.repo_context.getD ""
        ++ promptDiffHeader ++ ctxBlankComments.diff.getD "" ++ promptInstructions :=
  (prompt_omits_comments_section ctxBlankComments (by decide)).2.1

/-- The per-URL loop only ever appends to the accumulated document text. -/
theorem docFold_data_extends (env : Env) (l : List String) (a : String) (e : List String) :
    ∃ s, (l.foldl (docStep env) (a, e)).1.data = a.data ++ s := by
  induction l generalizing a e with
  | nil => exact ⟨[], by simp⟩
  | cons u t ih =>
    simp only [List.foldl_cons]
    by_cases hu : u = ""
    · simp only [docStep, if_pos hu]
      exact ih a e
    · simp only [docStep, if_neg hu]
      obtain ⟨s, hs⟩ := ih (a ++ (processUrl env u).1) (e ++ (processUrl env u).2)
      exact ⟨(processUrl env u).1.data ++ s,
        by rw [hs]; simp [String.data_append, List.append_assoc]⟩

/-- A non-empty URL of the list contributes its `processUrl` text to the
accumulated document text. -/
theorem docFold_data_contains (env : Env) (l : List String) (u : String) (hu : u ∈ l)
    (hne : u ≠ "") : ∀ (a : String) (e : List String),
    ∃ pre post, (l.foldl (docStep env) (a, e)).1.data
      = pre ++ (processUrl env u).1.data ++ post := by
  induction l with
  | nil => cases hu
  | cons v t ih =>
    intro a e
    simp only [List.foldl_cons]
    rcases List.mem_cons.mp hu with hveq | hut
    · subst hveq
      simp only [docStep, if_neg hne]
      obtain ⟨s, hs⟩ :=
        docFold_data_extends env t (a ++ (processUrl env u).1) (e ++ (processUrl env u).2)
      exact ⟨a.data, s, by rw [hs]; simp [String.data_append, List.append_assoc]⟩
    · by_cases hv : v = ""
      · simp only [docStep, if_pos hv]
        exact ih hut a e
      · simp only [docStep, if_neg hv]
        exact ih hut _ _

/-- C7: a URL whose lower-cased form ends in ".pdf" is processed through the
PDF extraction branch whatever the declared Content-Type is, and on success
the extracted text appears in the aggregate wrapped in the delimited block
tagged with that URL. -/
theorem pdf_url_uses_pdf_branch (env : Env) (urls_str url text : String)
    (resp : HttpResponse)
    (hmem : url ∈ (pySplitComma urls_str).map pyStrip)
    (hpdf : pyEndsWith (pyLower url) ".pdf" = true)
    (hresp : env.http url = .ok resp)
    (hext : resp.pdfText = .ok text) :
    ∃ pre post, (get_document_content env urls_str).1.data
      = pre ++ (contentBlock url text).data ++ post := by
  have hne : url ≠ "" := by
    intro he; subst he; exact absurd hpdf (by decide)
  have hproc : (processUrl env url).1 = contentBlock url text := by
    simp [processUrl, hresp, hpdf, hext]
  have hsne : urls_str ≠ "" := by
    intro he; subst he
    have h2 : (pySplitComma "").map pyStrip = [""] := by decide
    rw [h2] at hmem
    simp at hmem
    exact hne hmem
  have hg : get_document_content env urls_str
      = ((pySplitComma urls_str).map pyStrip).foldl (docStep env) ("", []) := by
    unfold get_document_content; rw [if_neg hsne]
  obtain ⟨pre, post, hp⟩ := docFold_data_contains env _ url hmem hne "" []
  rw [hproc] at hp
  exact ⟨pre, post, by rw [hg]; exact hp⟩

/-- A world serving a PDF body under an HTML Content-Type. -/
def envPdf : Env :=
  { envOkDiff with
    http := fun _ => .ok { contentType := "text/html", pdfText := .ok "PDF TEXT", htmlText := "HTML TEXT" } }

/-- C7 witness: an upper-cased `.PDF` URL served with Content-Type text/html
still lands in the aggregate via the PDF extraction result. -/
theorem pdf_url_uses_pdf_branch_witness :
    ∃ pre post, (get_document_content envPdf "https://x/SPEC.PDF").1.data
      = pre ++ (contentBlock "https://x/SPEC.PDF" "PDF TEXT").data ++ post :=
  pdf_url_uses_pdf_branch envPdf "https://x/SPEC.PDF" "https://x/SPEC.PDF" "PDF TEXT"
    { contentType := "text/html", pdfText := .ok "PDF TEXT", htmlText := "HTML TEXT" }
    (by decide) (by decide) rfl rfl

/-- The text the reading loop contributes for one file: its delimited block
on success, nothing on a read failure. -/
def renderRead (env : Env) (f : String) : String :=
  match env.readFile f with
  | .ok c => contentBlock f c
  | .error _ => ""

/-- The file-reading loop produces exactly one `renderRead` piece per listed
file, in list order. -/
theorem repoFold_data (env : Env) (l : List String) : ∀ (a : String) (e : List String),
    (l.foldl (repoReadStep env) (a, e)).1.data
      = a.data ++ (l.map (fun f => (renderRead env f).data)).flatten := by
  induction l with
  | nil => intro a e; simp
  | cons f t ih =>
    intro a e
    simp only [List.foldl_cons, List.map_cons, List.flatten_cons]
    cases hr : env.readFile f with
    | ok c =>
      simp only [repoReadStep, hr]
      rw [ih]
      simp [renderRead, hr, String.data_append, List.append_assoc]
    | error er =>
      simp only [repoReadStep, hr]
      rw [ih]
      simp [renderRead, hr]

/-- C2: for path inputs whose entries expand to the same set of files, the
resolved file list is identical, duplicate-free, lexicographically sorted,
contains each expanded file exactly once, and the aggregate text is exactly
the concatenation of one content block per resolved file in that order. -/
theorem repo_files_dedup_sorted_deterministic (env : Env) (p₁ p₂ : String)
    (h₁ : p₁ ≠ "")
    (hset : ∀ f, f ∈ (expandPaths env (parsePaths p₁)).1
      ↔ f ∈ (expandPaths env (parsePaths p₂)).1) :
    uniqueFiles env p₁ = uniqueFiles env p₂ ∧
    (uniqueFiles env p₁).Nodup ∧
    List.Sorted (· ≤ ·) (uniqueFiles env p₁) ∧
    (∀ f ∈ (expandPaths env (parsePaths p₁)).1, (uniqueFiles env p₁).count f = 1) ∧
    (get_repo_files_content env p₁).1.data
      = ((uniqueFiles env p₁).map (fun f => (renderRead env f).data)).flatten := by
  have nodup1 : (uniqueFiles env p₁).Nodup :=
    ((List.perm_insertionSort _ _).nodup_iff).mpr (List.nodup_dedup _)
  have nodup2 : (uniqueFiles env p₂).Nodup :=
    ((List.perm_insertionSort _ _).nodup_iff).mpr (List.nodup_dedup _)
  have sorted1 : List.Sorted (· ≤ ·) (uniqueFiles env p₁) :=
    List.sorted_insertionSort _ _
  have sorted2 : List.Sorted (· ≤ ·) (uniqueFiles env p₂) :=
    List.sorted_insertionSort _ _
  have hperm : List.Perm (uniqueFiles env p₁) (uniqueFiles env p₂) := by
    refine (List.perm_insertionSort _ _).trans (List.Perm.trans ?_
      (List.perm_insertionSort _ _).symm)
    refine (List.perm_ext_iff_of_nodup (List.nodup_dedup _) (List.nodup_dedup _)).mpr ?_
    intro a
    simp only [List.mem_dedup]
    exact hset a
  have hmemu : ∀ f, f ∈ uniqueFiles env p₁ ↔ f ∈ (expandPaths env (parsePaths p₁)).1 := by
    intro f
    unfold uniqueFiles
    rw [(List.perm_insertionSort _ _).mem_iff, List.mem_dedup]
  refine ⟨List.eq_of_perm_of_sorted hperm sorted1 sorted2, nodup1, sorted1, ?_, ?_⟩
  · intro f hf
    exact List.count_eq_one_of_mem nodup1 ((hmemu f).mpr hf)
  · have hg : get_repo_files_content env p₁
        = (uniqueFiles env p₁).foldl (repoReadStep env)
            ("", (expandPaths env (parsePaths p₁)).2) := by
      unfold get_repo_files_content; rw [if_neg h₁]
    rw [hg, repoFold_data]
    rfl

/-- A world with two plain files "a" and "b" and no directories. -/
def envRepo : Env :=
  { envOkDiff with
    isFile := fun p => p == "a" || p == "b"
    readFile := fun p => .ok ("content of " ++ p) }

/-- C2 witness: "a,b,a" (a duplicate entry) and " b , a" (reordered, with
stray spaces) expand to the same file set and resolve to the same list. -/
theorem repo_files_dedup_sorted_deterministic_witness :
    uniqueFiles envRepo "a,b,a" = uniqueFiles envRepo " b , a" :=
  (repo_files_dedup_sorted_deterministic envRepo "a,b,a" " b , a" (by decide)
    (by
      intro f
      have e1 : (expandPaths envRepo (parsePaths "a,b,a")).1 = ["a", "b", "a"] := by decide
      have e2 : (expandPaths envRepo (parsePaths " b , a")).1 = ["b", "a"] := by decide
      rw [e1, e2]
      simp only [List.mem_cons, List.not_mem_nil, or_false]
      tauto)).1
